/-
  Verification of the EDOPro-HD-Pics-Downloader download engine
  (src/EDOPro-HD-Pics-Downloader.py) by a shallow embedding in Lean 4.

  Each Python function of the engine is translated into a Lean definition:
  pure data manipulation becomes a Lean function; filesystem and network
  effects become explicit parameters (directory listings as boolean
  membership functions, network attempt outcomes as an environment of
  events) threaded through the translated control flow.  Machine details
  that cannot affect the claims (wall-clock sleeps, the rate-limit window
  arithmetic, log-line text) are kept only where a claim mentions them.
-/
import Mathlib

namespace EDOPro

/-! ## Data model

`DownloadTask` mirrors the task dicts built by `build_download_tasks`:
`{"card_id": ..., "name": ..., "image_id": ..., "url": ..., "subfolder": ...}`.
In the Python source `card.get("id")` may be absent (`None`), and the field
task copies it into `image_id` unchecked, so both id fields are `Option Nat`. -/

structure DownloadTask where
  card_id : Option Nat
  name : String
  image_id : Option Nat
  url : String
  subfolder : String
deriving Repr, DecidableEq

/-- One `card_images` entry of a catalog card: `{id, image_url,
image_url_cropped?}`.  Any key may be missing (`img.get(...)` returns
`None`), hence `Option`. -/
structure CardImage where
  id : Option Nat
  image_url : Option String
  image_url_cropped : Option String
deriving Repr, DecidableEq

/-- One `card_sets` entry: `{set_name, set_code}`. -/
structure CardSet where
  set_name : Option String
  set_code : Option String
deriving Repr, DecidableEq

/-- A catalog card as consumed by `build_download_tasks` / `filter_cards`:
`card.get("id")`, `card.get("name", "Unknown")`, `card.get("card_images")`,
`card.get("type", "")`, `card.get("card_sets")`. -/
structure Card where
  id : Option Nat
  name : Option String
  card_images : Option (List CardImage)
  type : Option String
  card_sets : Option (List CardSet)
deriving Repr, DecidableEq

/-- Python `needle in haystack` on strings (contiguous substring test),
written out on the character lists. -/
def listContainsSub (needle : List Char) : List Char → Bool
  | [] => needle.isEmpty
  | c :: cs => needle.isPrefixOf (c :: cs) || listContainsSub needle cs

/-- `needle in haystack` for Lean strings. -/
def strContains (haystack needle : String) : Bool :=
  listContainsSub needle.toList haystack.toList

/-- Python truthiness of `img.get("id")`: `None` and `0` are falsy. -/
def natTruthy : Option Nat → Bool
  | none => false
  | some n => n != 0

/-- Python truthiness of an optional string: `None` and `""` are falsy. -/
def strTruthy : Option String → Bool
  | none => false
  | some s => s != ""

/-! ## Integrity Validator — `verify_jpeg` (source lines 409–423)

A file on disk is modelled as `Option (List Nat)`: `none` when opening or
reading raises (unreadable / missing), `some bytes` otherwise.  The Python
code reads the first two bytes, seeks to the end minus two and reads the
last two bytes, then checks `f.tell() < 1024`; any exception (including the
`seek(-2, 2)` on a file shorter than 2 bytes) yields `False` through the
`except` clause.  For a readable file shorter than 2 bytes the first
two-byte comparison already fails, so folding the seek exception into the
marker comparison is behaviour-preserving. -/

def SOI : List Nat := [0xff, 0xd8]
def EOI : List Nat := [0xff, 0xd9]

def verify_jpeg (file : Option (List Nat)) : Bool :=
  match file with
  | none => false
  | some bs =>
    if bs.take 2 != SOI then false
    else if bs.drop (bs.length - 2) != EOI then false
    else if bs.length < 1024 then false
    else true

/-! ## Task Builder — `build_download_tasks` (source lines 571–607) -/

/-- The standard-art tasks of one card: one per image whose `id` and
`image_url` are both truthy (source lines 581–592). -/
def cardStdTasks (card : Card) : List DownloadTask :=
  (card.card_images.getD []).filterMap fun img =>
    if natTruthy img.id && strTruthy img.image_url then
      some { card_id := card.id
             name := card.name.getD "Unknown"
             image_id := img.id
             url := (img.image_url).getD ""
             subfolder := "" }
    else none

/-- The extra field-crop task of one card, when its type contains both
`"Field"` and `"Spell"`, it has a first image, and that image has a truthy
`image_url_cropped` (source lines 594–605).  The task's `image_id` is the
parent card's id, not the image's. -/
def cardFieldTasks (card : Card) : List DownloadTask :=
  let card_type := card.type.getD ""
  if strContains card_type "Field" && strContains card_type "Spell" then
    match (card.card_images.getD []).head? with
    | none => []
    | some first_img =>
      match first_img.image_url_cropped with
      | none => []
      | some cropped_url =>
        if cropped_url != "" then
          [{ card_id := card.id
             name := card.name.getD "Unknown"
             image_id := card.id
             url := cropped_url
             subfolder := "field" }]
        else []
  else []

/-- All tasks of one card, standard art first, then the field crop, in the
order the Python loop appends them. -/
def cardTasks (card : Card) : List DownloadTask :=
  cardStdTasks card ++ cardFieldTasks card

/-- `build_download_tasks(cards)`: tasks in catalog order, no
deduplication. -/
def build_download_tasks (cards : List Card) : List DownloadTask :=
  cards.flatMap cardTasks

/-! ## Existing-file filter — `filter_tasks` (source lines 634–654)

The directory state is the data `filter_tasks` actually consults: the two
`list_existing_images` scans (lowercase `.jpg` names in the pics dir and in
its `field` subdir, as boolean membership functions) and the result of
`verify_jpeg` on the existing file at each (subfolder, filename) pair. -/

structure DirState where
  existsBase : String → Bool
  existsField : String → Bool
  validAt : String → String → Bool

/-- `f"{t['image_id']}.jpg".lower()` (line 642): Python renders a missing
id (`None`) as `None`, lowercased to `none`. -/
def taskFilename (t : DownloadTask) : String :=
  (match t.image_id with
   | some n => toString n
   | none => "none") ++ ".jpg"

/-- `f"{t['image_id']}.jpg"` without `.lower()`, as built for `outpath`
(line 649) and by the worker (line 670). -/
def taskFilenameRaw (t : DownloadTask) : String :=
  (match t.image_id with
   | some n => toString n
   | none => "None") ++ ".jpg"

/-- The existence test of line 643: the lowercased filename against the
listing of the subfolder the task targets. -/
def targetExists (dir : DirState) (t : DownloadTask) : Bool :=
  if t.subfolder == "field" then dir.existsField (taskFilename t)
  else dir.existsBase (taskFilename t)

/-- Keep/drop decision for one task inside the `filter_tasks` loop
(lines 640–653). -/
def keepTask (dir : DirState) (only_missing validate_existing : Bool)
    (t : DownloadTask) : Bool :=
  if !targetExists dir t then true
  else if validate_existing then !dir.validAt t.subfolder (taskFilenameRaw t)
  else !only_missing

def filter_tasks (dir : DirState) (only_missing validate_existing : Bool)
    (tasks : List DownloadTask) : List DownloadTask :=
  if !only_missing && !validate_existing then tasks
  else tasks.filter (keepTask dir only_missing validate_existing)

/-! ## Type/set filter — `filter_cards` (source lines 609–632) -/

def cardMatches (type_filter set_filter : String) (card : Card) : Bool :=
  (if type_filter != "" then
     strContains ((card.type.getD "").toLower) type_filter
   else true) &&
  (if set_filter != "" then
     (card.card_sets.getD []).any fun s =>
       strContains ((s.set_name.getD "").toLower) set_filter ||
       strContains ((s.set_code.getD "").toLower) set_filter
   else true)

def filter_cards (cards : List Card) (type_filter set_filter : String) : List Card :=
  if type_filter == "" && set_filter == "" then cards
  else cards.filter (cardMatches (type_filter.trim.toLower) (set_filter.trim.toLower))

/-! ## Configuration parsing — `download_worker_main` lines 710–743

A value taken from the loosely-typed `params` dict, as seen by
`int(value)`: the key may be absent (`params.get` then supplies the
default, on which `int` succeeds), the value may convert to an integer
`n`, or `int(value)` raises `ValueError`/`TypeError` and the `except`
clause restores the default. -/

inductive ConfigVal where
  | missing
  | num (n : Int)
  | bad
deriving Repr, DecidableEq

def parseIntOr (v : ConfigVal) (dflt : Int) : Int :=
  match v with
  | .missing => dflt
  | .num n => n
  | .bad => dflt

/-- `max(lo, min(hi, x))` as the source writes the clamps. -/
def clampInt (lo hi x : Int) : Int := max lo (min hi x)

/-- `concurrency`: default 12, clamped to `[1, 50]` (lines 720–724). -/
def effConcurrency (v : ConfigVal) : Int := clampInt 1 50 (parseIntOr v 12)

/-- `timeout`: default 30, clamped to `[10, 120]` (lines 726–730). -/
def effTimeout (v : ConfigVal) : Int := clampInt 10 120 (parseIntOr v 30)

/-- `retry`: default 3, clamped to `[1, 10]` (lines 732–736). -/
def effRetry (v : ConfigVal) : Int := clampInt 1 10 (parseIntOr v 3)

/-- `maxKbps`: default 0, negatives forced to 0 (lines 738–743). -/
def effRateLimit (v : ConfigVal) : Int :=
  let r := parseIntOr v 0
  if r < 0 then 0 else r

/-! ## Fetch-With-Retry — `download_file` (source lines 494–569)

The filesystem slice the function touches is the pair of paths
`outpath + ".part"` (temp) and `outpath` (final).  The network, the cancel
flag and the pause flag are folded into an environment assigning each
attempt number its observable outcome:

  * `cancelAtTop`   — `state.cancel_flag` is set at the top of the loop
                      (line 499): remove temp if present, return
                      `(False, "Cancelled by user")`;
  * `interrupted`   — `InterruptedError` raised inside the streaming loop
                      (cancel observed at a chunk boundary or during
                      pause, lines 522–528): the temp file has been
                      opened; the handler removes it and returns;
  * `failEarly`     — `urlopen` fails or the content-type check raises
                      before `open(temp, "wb")` (lines 513–516): the temp
                      file is not created on this attempt; retryable; the
                      constructor carries `str(e)`, the exception's text;
  * `failLate`      — `URLError`/`HTTPError`/`OSError` raised after the
                      temp file was opened (a read or write failure, or a
                      failing `os.replace`): temp left on disk; retryable;
                      carries `str(e)`;
  * `badVerify`     — the body is fully written but `verify_jpeg(temp)`
                      fails (line 544): a `ValueError` with fixed text;
                      retryable;
  * `ok`            — the body is written, verification passes,
                      `os.replace(temp, outpath)` succeeds.

Sleeps (backoff, pause polling, rate limiting) change only timing, never
the filesystem, and are dropped.  `os.remove` and `os.replace` are given
their normal semantics (they succeed). -/

structure FS where
  tempExists : Bool
  outExists : Bool
deriving Repr, DecidableEq

def FS.removeTemp (fs : FS) : FS := { fs with tempExists := false }

/-- `open(temp, "wb")` creates (or truncates) the temp file. -/
def FS.createTemp (fs : FS) : FS := { fs with tempExists := true }

/-- `os.replace(temp, outpath)`: atomic rename of temp onto the final
path. -/
def FS.replaceTempToOut (_fs : FS) : FS := { tempExists := false, outExists := true }

inductive AttemptEvent where
  | cancelAtTop
  | interrupted (during_pause : Bool)
  | failEarly (msg : String)
  | failLate (msg : String)
  | badVerify
  | ok
deriving Repr, DecidableEq

inductive DlResult where
  | success
  | cancelled (msg : String)
  | failed (msg : String)
  | maxRetriesExceeded
deriving Repr, DecidableEq

/-- `str(e)` of the `InterruptedError` (lines 523, 528). -/
def interruptedMsg (during_pause : Bool) : String :=
  if during_pause then "Cancelled during pause" else "Cancelled during download"

/-- `f"After {max_retries} attempts: {str(e)}"` (line 565): the final
failure embeds the last exception's text verbatim — for `failEarly` and
`failLate` that text comes from the environment (a `URLError`, an
`HTTPError` with a server-controlled reason phrase, an `OSError`, or the
content-type `ValueError`); for `badVerify` it is the fixed `ValueError`
text of line 545. -/
def afterAttemptsMsg (max_retries : Nat) (emsg : String) : String :=
  "After " ++ toString max_retries ++ " attempts: " ++ emsg

def badVerifyMsg : String := "Downloaded file is not a valid JPEG"

/-- The retry loop of `download_file`, on the attempts still to run
(`remaining` counts the current attempt, so the current attempt is the
last, `attempt == max_retries`, exactly when `remaining = 1`).  The `0`
case is the loop falling through (line 569), reachable only when
`max_retries < 1`. -/
def dlLoop (env : Nat → AttemptEvent) (max_retries : Nat) :
    Nat → Nat → FS → FS × DlResult
  | _, 0, fs => (fs, .maxRetriesExceeded)
  | attempt, remaining + 1, fs =>
    match env attempt with
    | .cancelAtTop => (fs.removeTemp, .cancelled "Cancelled by user")
    | .interrupted b => (fs.createTemp.removeTemp, .cancelled (interruptedMsg b))
    | .ok => (fs.createTemp.replaceTempToOut, .success)
    | .failEarly emsg =>
      if remaining = 0 then (fs.removeTemp, .failed (afterAttemptsMsg max_retries emsg))
      else dlLoop env max_retries (attempt + 1) remaining fs
    | .failLate emsg =>
      if remaining = 0 then
        (fs.createTemp.removeTemp, .failed (afterAttemptsMsg max_retries emsg))
      else dlLoop env max_retries (attempt + 1) remaining fs.createTemp
    | .badVerify =>
      if remaining = 0 then
        (fs.createTemp.removeTemp, .failed (afterAttemptsMsg max_retries badVerifyMsg))
      else dlLoop env max_retries (attempt + 1) remaining fs.createTemp

def download_file (env : Nat → AttemptEvent) (max_retries : Nat) (fs : FS) :
    FS × DlResult :=
  dlLoop env max_retries 1 max_retries fs

/-! ## Per-task worker — `download_worker_task` (source lines 656–696)

The worker reads `state.cancel_flag`, probes the target directory with
`os.path.isdir`, probes the output file with `os.path.exists`, possibly
validates it with `verify_jpeg`, and otherwise delegates to
`download_file`.  Those observations form its environment; the directory
probe is keyed by the task's subfolder because
`target_dir = os.path.join(picsdir, sub) if sub else picsdir`.  The
returned second component records whether `download_file` was invoked at
all (the only statement performing network I/O or touching the temp
path); `download_worker_task` itself contains no `os.makedirs` or other
directory-creating call, so the directory state is input-only. -/

structure WorkerEnv where
  cancel_flag : Bool
  dirIsDir : String → Bool
  outExists : String → String → Bool
  validAt : String → String → Bool
  dlResult : DlResult

inductive WStatus where
  | success
  | skipped
  | cancelled
  | error (msg : String)
deriving Repr, DecidableEq

/-- `str(err)` of the tuple returned by `download_file`, for the
`"Cancelled" in str(err)` test at line 689. -/
def dlErrMsg : DlResult → String
  | .success => ""
  | .cancelled m => m
  | .failed m => m
  | .maxRetriesExceeded => "Max retries exceeded"

/-- Mapping of the `download_file` outcome to the worker's returned status
(lines 687–696). -/
def dlStatusOf (r : DlResult) : WStatus :=
  match r with
  | .success => .success
  | r =>
    if strContains (dlErrMsg r) "Cancelled" then .cancelled
    else .error (dlErrMsg r)

def download_worker_task (env : WorkerEnv) (task : DownloadTask)
    (force validate_existing : Bool) : WStatus × Bool :=
  if env.cancel_flag then (.cancelled, false)
  else
    let sub := task.subfolder
    if !env.dirIsDir sub then
      (.error "Target directory not found", false)
    else
      let fname := taskFilenameRaw task
      if env.outExists sub fname && !force then
        if !validate_existing then (.skipped, false)
        else if env.validAt sub fname then (.skipped, false)
        else (dlStatusOf env.dlResult, true)
      else (dlStatusOf env.dlResult, true)

/-! ## Download Coordinator counter loop — `download_worker_main`
(source lines 815–862)

`state.total` is set to `len(tasks)` (line 798) and one future per task is
submitted (lines 816–819).  `as_completed` yields every future exactly
once; the loop body classifies each completion and performs at most one
atomic `state.increment`.  A completion is either the worker's returned
status dict, a `CancelledError` (the future was cancelled before running,
possible only after `state.cancel_flag` was observed), or an unexpected
exception from `future.result()`.  Thread interleaving affects only the
order in which completions are consumed, so a run is a list of
completions; the counters are their left fold. -/

inductive TaskOutcome where
  | result (s : WStatus)
  | futureCancelled
  | raised (msg : String)
deriving Repr, DecidableEq

structure Counters where
  processed : Nat
  skipped : Nat
  errors : Nat
deriving Repr, DecidableEq

def Counters.sum (c : Counters) : Nat := c.processed + c.skipped + c.errors

/-- One iteration of the `as_completed` loop (lines 829–862). -/
def coordStep (c : Counters) : TaskOutcome → Counters
  | .result .success => { c with processed := c.processed + 1 }
  | .result .skipped => { c with skipped := c.skipped + 1 }
  | .result (.error _) => { c with errors := c.errors + 1 }
  | .result .cancelled => c
  | .futureCancelled => c
  | .raised _ => { c with errors := c.errors + 1 }

/-- The whole loop, starting from the zeroed counters `reset` left
behind. -/
def coordRun (outcomes : List TaskOutcome) : Counters :=
  outcomes.foldl coordStep ⟨0, 0, 0⟩

/-- A completion that increments a counter: anything but a worker result
classified `Cancelled` and a future cancelled before running.  With
`state.cancel_flag` never set, no future is ever cancelled
(`future.cancel()` is only reached under the flag, lines 823–827), but a
worker result can still be classified `Cancelled` without the flag:
line 689 tests `"Cancelled" in str(err)`, and the exhausted-retry message
of line 565 embeds the last exception's text verbatim, which may itself
contain `Cancelled`. -/
def nonCancelOutcome : TaskOutcome → Bool
  | .result .cancelled => false
  | .futureCancelled => false
  | _ => true

/-! ## Shared state and the start request — `DownloadState` (lines 30–76)
and `RequestHandler.do_POST`, `/api/start` branch (lines 2504–2535) -/

structure ErrorDetail where
  id : Option Nat
  name : String
  url : String
  error : String
deriving Repr, DecidableEq

structure DownloadState where
  running : Bool
  total : Nat
  processed : Nat
  skipped : Nat
  errors : Nat
  logs : List String
  cancel_flag : Bool
  pause_flag : Bool
  start_time : Option Nat
  error_details : List ErrorDetail
  api_error : Option String
  report : Option String
deriving Repr, DecidableEq

/-- `DownloadState.reset` (lines 63–76). -/
def DownloadState.reset (_st : DownloadState) : DownloadState :=
  { running := false, total := 0, processed := 0, skipped := 0, errors := 0
    logs := [], cancel_flag := false, pause_flag := false, start_time := none
    error_details := [], api_error := none, report := none }

inductive StartResponse where
  | badRequest
  | alreadyRunning
  | started
deriving Repr, DecidableEq

/-- The `/api/start` branch of `do_POST`: parse the body (`params_valid`
says whether `json.loads` succeeded), answer 409 `AlreadyRunning` while
`state.running` — returning before `state.reset()` and before the worker
thread is spawned — and otherwise reset the state and start the worker
(whose own mutations happen asynchronously, after the 200 response). -/
def handleStart (st : DownloadState) (params_valid : Bool) :
    DownloadState × StartResponse :=
  if !params_valid then (st, .badRequest)
  else if st.running then (st, .alreadyRunning)
  else (st.reset, .started)

/-! ## Theorems -/

/-- C4: `verify_jpeg` returns `true` exactly for a readable file of at
least 1024 bytes whose first two bytes are the SOI marker `FF D8` and
whose last two bytes are the EOI marker `FF D9`; it returns `false` for
every unreadable file and every file missing the length bound or either
marker. -/
theorem verify_jpeg_accepts_iff (file : Option (List Nat)) :
    verify_jpeg file = true ↔
      ∃ bs, file = some bs ∧ 1024 ≤ bs.length ∧
        bs.take 2 = SOI ∧ bs.drop (bs.length - 2) = EOI := by
  cases file with
  | none => simp [verify_jpeg]
  | some bs =>
    constructor
    · intro h
      simp only [verify_jpeg] at h
      split_ifs at h with h1 h2 h3
      refine ⟨bs, rfl, by omega, ?_, ?_⟩
      · simpa [bne_iff_ne] using h1
      · simpa [bne_iff_ne] using h2
    · rintro ⟨bs', heq, hlen, hsoi, heoi⟩
      obtain rfl : bs' = bs := by simpa using heq.symm
      simp [verify_jpeg, hsoi, heoi, Nat.not_lt.mpr hlen]

/-- C8: `filter_tasks` is idempotent — filtering its own output under the
same directory state and flags returns that output unchanged. -/
theorem filter_tasks_idempotent (dir : DirState) (only_missing validate_existing : Bool)
    (tasks : List DownloadTask) :
    filter_tasks dir only_missing validate_existing
        (filter_tasks dir only_missing validate_existing tasks) =
      filter_tasks dir only_missing validate_existing tasks := by
  by_cases h : (!only_missing && !validate_existing) = true
  · simp [filter_tasks, h]
  · simp [filter_tasks, h, List.filter_filter]

/-- `max lo (min hi x)` lands in `[lo, hi]` whenever `lo ≤ hi`. -/
theorem clampInt_mem (lo hi x : Int) (h : lo ≤ hi) :
    lo ≤ clampInt lo hi x ∧ clampInt lo hi x ≤ hi :=
  ⟨le_max_left lo _, max_le h (min_le_left hi x)⟩

/-- C6: the effective concurrency always lies in `[1, 50]`, the effective
timeout in `[10, 120]`, the effective retry count in `[1, 10]`; a missing
or non-convertible value yields the defaults 12, 30 and 3; a convertible
value is clamped to the interval; a negative or non-numeric rate limit
becomes 0 and a non-negative one is kept. -/
theorem config_clamps :
    (∀ v, 1 ≤ effConcurrency v ∧ effConcurrency v ≤ 50) ∧
    effConcurrency .missing = 12 ∧ effConcurrency .bad = 12 ∧
    (∀ n, effConcurrency (.num n) = max 1 (min 50 n)) ∧
    (∀ v, 10 ≤ effTimeout v ∧ effTimeout v ≤ 120) ∧
    effTimeout .missing = 30 ∧ effTimeout .bad = 30 ∧
    (∀ n, effTimeout (.num n) = max 10 (min 120 n)) ∧
    (∀ v, 1 ≤ effRetry v ∧ effRetry v ≤ 10) ∧
    effRetry .missing = 3 ∧ effRetry .bad = 3 ∧
    (∀ n, effRetry (.num n) = max 1 (min 10 n)) ∧
    (∀ n, effRateLimit (.num n) = if n < 0 then 0 else n) ∧
    effRateLimit .missing = 0 ∧ effRateLimit .bad = 0 :=
  ⟨fun v => clampInt_mem 1 50 _ (by norm_num),
   rfl, rfl, fun _ => rfl,
   fun v => clampInt_mem 10 120 _ (by norm_num),
   rfl, rfl, fun _ => rfl,
   fun v => clampInt_mem 1 10 _ (by norm_num),
   rfl, rfl, fun _ => rfl,
   fun _ => rfl, rfl, rfl⟩

/-- C3: under either flag, a task is dropped by `filter_tasks` exactly
when its target filename is in the scanned listing of its subfolder and
(`validate_existing` is off, or the existing file passes `verify_jpeg`).
In particular a task whose existing file fails validation is kept for
re-download even when `only_missing` is set, provided `validate_existing`
was requested. -/
theorem filter_tasks_drop_characterization (dir : DirState)
    (only_missing validate_existing : Bool) (t : DownloadTask)
    (tasks : List DownloadTask)
    (hflag : (only_missing || validate_existing) = true)
    (ht : t ∈ tasks) :
    t ∉ filter_tasks dir only_missing validate_existing tasks ↔
      targetExists dir t = true ∧
        (validate_existing = false ∨
          dir.validAt t.subfolder (taskFilenameRaw t) = true) := by
  have hcond : (!only_missing && !validate_existing) = false := by
    cases only_missing <;> cases validate_existing <;> simp_all
  simp only [filter_tasks, hcond, Bool.false_eq_true, if_false, List.mem_filter, not_and, ht,
    forall_const]
  cases hex : targetExists dir t <;>
    cases hval : dir.validAt t.subfolder (taskFilenameRaw t) <;>
      cases only_missing <;> cases validate_existing <;>
        simp_all [keepTask]

/-- A task, directory state and task list realizing the scenario
`onlyMissing = true`, `validateExisting = false`, existing `5.jpg`
present: the task is dropped. -/
def sampleTask5 : DownloadTask :=
  { card_id := some 5, name := "A", image_id := some 5, url := "u5", subfolder := "" }

def sampleDir5 : DirState :=
  { existsBase := fun s => s == "5.jpg"
    existsField := fun _ => false
    validAt := fun _ _ => false }

theorem filter_tasks_drop_witness :
    sampleTask5 ∉ filter_tasks sampleDir5 true false [sampleTask5] :=
  (filter_tasks_drop_characterization sampleDir5 true false sampleTask5 [sampleTask5]
      (by decide) (by simp)).mpr ⟨by decide, Or.inl rfl⟩

/-- C5: for a card whose type string contains both `"Field"` and
`"Spell"` and whose first image carries a truthy cropped-art URL, the
card's tasks are its standard-art tasks followed by exactly one extra
task whose url is that cropped URL, whose subfolder is `"field"`, and
whose `image_id` is the parent card's id; none of the standard tasks use
the `"field"` subfolder, and `build_download_tasks` emits cards' tasks in
catalog order with no deduplication. -/
theorem field_spell_extra_task (cards : List Card) (card : Card)
    (first_img : CardImage) (cropped : String)
    (hField : strContains (card.type.getD "") "Field" = true)
    (hSpell : strContains (card.type.getD "") "Spell" = true)
    (hfirst : (card.card_images.getD []).head? = some first_img)
    (hcrop : first_img.image_url_cropped = some cropped)
    (hne : cropped ≠ "") :
    cardTasks card = cardStdTasks card ++
      [{ card_id := card.id, name := card.name.getD "Unknown",
         image_id := card.id, url := cropped, subfolder := "field" }] ∧
    (∀ t ∈ cardStdTasks card, t.subfolder = "") ∧
    build_download_tasks cards = cards.flatMap cardTasks := by
  refine ⟨?_, ?_, rfl⟩
  · simp only [cardTasks, cardFieldTasks, hField, hSpell, Bool.and_self, if_true, hfirst,
      hcrop]
    simp [hne]
  · intro t htmem
    simp only [cardStdTasks, List.mem_filterMap] at htmem
    obtain ⟨img, -, himg⟩ := htmem
    by_cases hcnd : (natTruthy img.id && strTruthy img.image_url) = true
    · rw [if_pos hcnd] at himg
      injection himg with h
      rw [← h]
    · simp [hcnd] at himg

def sampleFieldImg : CardImage :=
  { id := some 2, image_url := some "u2", image_url_cropped := some "c2" }

def sampleFieldCard : Card :=
  { id := some 2, name := some "X", card_images := some [sampleFieldImg],
    type := some "Field Spell Card", card_sets := none }

theorem field_spell_extra_task_witness :
    cardTasks sampleFieldCard = cardStdTasks sampleFieldCard ++
      [{ card_id := sampleFieldCard.id, name := sampleFieldCard.name.getD "Unknown",
         image_id := sampleFieldCard.id, url := "c2", subfolder := "field" }] ∧
    (∀ t ∈ cardStdTasks sampleFieldCard, t.subfolder = "") ∧
    build_download_tasks [sampleFieldCard] = [sampleFieldCard].flatMap cardTasks :=
  field_spell_extra_task [sampleFieldCard] sampleFieldCard sampleFieldImg "c2"
    (by decide) (by decide) rfl rfl (by decide)

/-- `filterMap` of a guarded constructor is a `map` over a `filter`. -/
theorem filterMap_guard_eq_map_filter {α β : Type} (f : α → β) (p : α → Bool)
    (l : List α) :
    l.filterMap (fun a => if p a then some (f a) else none) = (l.filter p).map f := by
  induction l with
  | nil => rfl
  | cons a l ih => by_cases h : p a = true <;> simp [h, ih]

/-- C9: `build_download_tasks` emits one standard-art task per image with
a truthy id and a truthy `image_url`, and nothing (no task, no error) for
any other image; the standard task count never exceeds the image count
and falls strictly below it as soon as one image has a missing id, a
missing URL, or id 0. -/
theorem std_tasks_only_truthy (card : Card) :
    cardStdTasks card =
      ((card.card_images.getD []).filter
          (fun img => natTruthy img.id && strTruthy img.image_url)).map
        (fun img =>
          { card_id := card.id, name := card.name.getD "Unknown",
            image_id := img.id, url := img.image_url.getD "", subfolder := "" }) ∧
    (cardStdTasks card).length ≤ (card.card_images.getD []).length ∧
    (∀ img ∈ card.card_images.getD [],
      (natTruthy img.id && strTruthy img.image_url) = false →
        (cardStdTasks card).length < (card.card_images.getD []).length) := by
  have hmap := filterMap_guard_eq_map_filter
    (fun img : CardImage =>
      ({ card_id := card.id, name := card.name.getD "Unknown",
         image_id := img.id, url := img.image_url.getD "",
         subfolder := "" } : DownloadTask))
    (fun img => natTruthy img.id && strTruthy img.image_url)
    (card.card_images.getD [])
  refine ⟨hmap, ?_, ?_⟩
  · rw [cardStdTasks, hmap, List.length_map]
    exact List.length_filter_le _ _
  · intro img hmem hbad
    rw [cardStdTasks, hmap, List.length_map]
    refine List.length_filter_lt_length_iff_exists.mpr ⟨img, hmem, ?_⟩
    simp [hbad]

def sampleBadImg : CardImage :=
  { id := some 0, image_url := some "u0", image_url_cropped := none }

def sampleGoodImg : CardImage :=
  { id := some 7, image_url := some "u7", image_url_cropped := none }

def sampleMixedCard : Card :=
  { id := some 7, name := some "Y", card_images := some [sampleGoodImg, sampleBadImg],
    type := some "Normal Monster", card_sets := none }

theorem std_tasks_only_truthy_witness :
    (cardStdTasks sampleMixedCard).length <
      (sampleMixedCard.card_images.getD []).length :=
  (std_tasks_only_truthy sampleMixedCard).2.2 sampleBadImg (by decide) (by decide)

/-- Every exit of the retry loop that actually runs at least one attempt
leaves the temp file removed. -/
theorem dlLoop_no_temp (env : Nat → AttemptEvent) (max_retries : Nat) :
    ∀ remaining attempt fs, 1 ≤ remaining →
      ((dlLoop env max_retries attempt remaining fs).1).tempExists = false := by
  intro remaining
  induction remaining with
  | zero => exact fun _ _ h => absurd h (by omega)
  | succ k ih =>
    intro attempt fs _
    unfold dlLoop
    cases env attempt with
    | cancelAtTop => rfl
    | interrupted b => rfl
    | ok => rfl
    | failEarly emsg =>
      by_cases hk : k = 0
      · simp [hk, FS.removeTemp]
      · simp only [if_neg hk]
        exact ih (attempt + 1) fs (by omega)
    | failLate emsg =>
      by_cases hk : k = 0
      · simp [hk, FS.createTemp, FS.removeTemp]
      · simp only [if_neg hk]
        exact ih (attempt + 1) fs.createTemp (by omega)
    | badVerify =>
      by_cases hk : k = 0
      · simp [hk, FS.createTemp, FS.removeTemp]
      · simp only [if_neg hk]
        exact ih (attempt + 1) fs.createTemp (by omega)

/-- C2 (amended): whenever `download_file` runs at least one attempt
(`max_retries ≥ 1`, which every call site guarantees through the retry
clamp), the `.part` temp file does not exist when it returns — on
success, on error after exhausting retries, and on cancellation alike,
for every attempt-outcome environment and every starting disk state. -/
theorem download_file_no_temp_left (env : Nat → AttemptEvent)
    (max_retries : Nat) (fs : FS) (h : 1 ≤ max_retries) :
    ((download_file env max_retries fs).1).tempExists = false :=
  dlLoop_no_temp env max_retries max_retries 1 fs h

theorem download_file_no_temp_left_witness :
    ((download_file (fun _ => .failEarly "timed out") 3 ⟨true, false⟩).1).tempExists = false :=
  download_file_no_temp_left (fun _ => .failEarly "timed out") 3 ⟨true, false⟩ (by decide)

/-- C2, as frozen, is refuted at `max_retries = 0`: the `for attempt in
range(1, max_retries + 1)` loop body never runs, the function returns
`(False, "Max retries exceeded")` without touching the disk, and a
pre-existing `.part` file is still there. -/
theorem download_file_temp_left_counterexample :
    ((download_file (fun _ => .ok) 0 ⟨true, false⟩).1).tempExists = true := rfl

/-- One loop iteration adds exactly one to `processed + skipped + errors`
unless the completion is a cancelled worker or a cancelled future. -/
theorem coordStep_sum (c : Counters) (o : TaskOutcome) :
    (coordStep c o).sum =
      if nonCancelOutcome o then c.sum + 1 else c.sum := by
  cases o with
  | result s => cases s <;> simp [coordStep, nonCancelOutcome, Counters.sum] <;> omega
  | futureCancelled => simp [coordStep, nonCancelOutcome]
  | raised m => simp [coordStep, nonCancelOutcome, Counters.sum]; omega

theorem coordFold_sum (l : List TaskOutcome) :
    ∀ c : Counters, (l.foldl coordStep c).sum ≤ c.sum + l.length ∧
      ((∀ o ∈ l, nonCancelOutcome o = true) →
        (l.foldl coordStep c).sum = c.sum + l.length) := by
  induction l with
  | nil => intro c; simp
  | cons o l ih =>
    intro c
    have hstep_le : (coordStep c o).sum ≤ c.sum + 1 := by
      rw [coordStep_sum]; split <;> omega
    constructor
    · have h1 := (ih (coordStep c o)).1
      simp only [List.foldl_cons, List.length_cons]
      omega
    · intro hall
      have ho := hall o (List.mem_cons_self o l)
      have hrest : ∀ x ∈ l, nonCancelOutcome x = true :=
        fun x hx => hall x (List.mem_cons_of_mem o hx)
      have h2 := (ih (coordStep c o)).2 hrest
      have h3 := coordStep_sum c o
      rw [if_pos ho] at h3
      simp only [List.foldl_cons, List.length_cons]
      omega

/-- C1 (amended): for every completion order a run can produce,
`processed + skipped + errors` stays at or below `total`
(`= len(tasks)` = the number of dispatched futures) after every prefix of
the `as_completed` loop; and whenever no completion is classified
`Cancelled` and no future is cancelled — which requires the cancel flag
never set, but also that no exhausted-retry failure text happens to
contain the substring `"Cancelled"` (line 689) — the final sum equals
`total`. -/
theorem coordinator_counts (outcomes : List TaskOutcome) :
    (∀ n, (coordRun (outcomes.take n)).sum ≤ outcomes.length) ∧
    ((∀ o ∈ outcomes, nonCancelOutcome o = true) →
      (coordRun outcomes).sum = outcomes.length) := by
  constructor
  · intro n
    have h := (coordFold_sum (outcomes.take n) ⟨0, 0, 0⟩).1
    have hlen : (outcomes.take n).length ≤ outcomes.length := by
      rw [List.length_take]; omega
    have h0 : (Counters.mk 0 0 0).sum = 0 := rfl
    rw [coordRun]
    omega
  · intro hall
    have h := (coordFold_sum outcomes ⟨0, 0, 0⟩).2 hall
    have h0 : (Counters.mk 0 0 0).sum = 0 := rfl
    rw [coordRun]
    omega

theorem coordinator_counts_witness :
    (coordRun [.result .success, .result .skipped, .result (.error "boom")]).sum = 3 :=
  (coordinator_counts [.result .success, .result .skipped, .result (.error "boom")]).2
    (by decide)

/-- A one-task run whose cancel flag is never set: every attempt of the
sole download fails late with an `HTTPError` whose server-controlled
reason phrase happens to contain `Cancelled`. -/
def misfireEnv : Nat → AttemptEvent := fun _ => .failLate "HTTP Error 499: Request Cancelled"

def misfireTask : DownloadTask :=
  { card_id := some 9, name := "Z", image_id := some 9, url := "u9", subfolder := "" }

def misfireWorkerEnv : WorkerEnv :=
  { cancel_flag := false
    dirIsDir := fun _ => true
    outExists := fun _ _ => false
    validAt := fun _ _ => false
    dlResult := (download_file misfireEnv 2 ⟨false, false⟩).2 }

def misfireOutcomes : List TaskOutcome :=
  [.result (download_worker_task misfireWorkerEnv misfireTask false false).1]

/-- C1, as frozen, is refuted at this run: the cancel flag is false
throughout and the attempt environment contains no cancel event, yet the
exhausted-retry failure text `After 2 attempts: HTTP Error 499: Request
Cancelled` (built by line 565 from the exception) makes the
`"Cancelled" in str(err)` test of line 689 classify the worker result as
`Cancelled`; the loop's `pass` branch increments nothing and the final
`processed + skipped + errors` is 0, below `total = 1` although the run
completed without cancellation. -/
theorem coordinator_counts_counterexample :
    misfireWorkerEnv.cancel_flag = false ∧
    (download_worker_task misfireWorkerEnv misfireTask false false).1 = .cancelled ∧
    misfireOutcomes.length = 1 ∧
    (coordRun misfireOutcomes).sum = 0 := by
  decide

/-- C7: a start request (with a parseable body) arriving while
`state.running` is answered with the 409 `AlreadyRunning` error and the
shared state is returned exactly as it was — `state.reset()` and the
worker-thread start are never reached. -/
theorem start_rejected_while_running (st : DownloadState)
    (h : st.running = true) :
    handleStart st true = (st, .alreadyRunning) := by
  simp [handleStart, h]

def sampleRunningState : DownloadState :=
  { running := true, total := 4, processed := 1, skipped := 1, errors := 0
    logs := ["started"], cancel_flag := false, pause_flag := false
    start_time := some 0, error_details := [], api_error := none, report := none }

theorem start_rejected_while_running_witness :
    handleStart sampleRunningState true = (sampleRunningState, .alreadyRunning) :=
  start_rejected_while_running sampleRunningState rfl

/-- C10: when the worker reaches a task (cancel flag unset) whose target
directory — the pics root for standard tasks, its `field` subdirectory
for field-crop tasks — fails the `os.path.isdir` probe, it returns an
`Error` result at once: `download_file` is never invoked (second
component `false`, so no network I/O), and the worker contains no
directory-creating call.  Instantiating `task.subfolder = "field"`, every
field-crop task errors whenever the `field` subdirectory is absent. -/
theorem worker_missing_dir_errors (env : WorkerEnv) (task : DownloadTask)
    (force validate_existing : Bool)
    (hcancel : env.cancel_flag = false)
    (hdir : env.dirIsDir task.subfolder = false) :
    download_worker_task env task force validate_existing =
      (.error "Target directory not found", false) := by
  simp [download_worker_task, hcancel, hdir]

def sampleFieldTask : DownloadTask :=
  { card_id := some 2, name := "X", image_id := some 2, url := "c2", subfolder := "field" }

/-- The pics root exists, `pics/field` does not. -/
def sampleNoFieldEnv : WorkerEnv :=
  { cancel_flag := false
    dirIsDir := fun s => s == ""
    outExists := fun _ _ => false
    validAt := fun _ _ => false
    dlResult := .success }

theorem worker_missing_dir_errors_witness :
    download_worker_task sampleNoFieldEnv sampleFieldTask false false =
      (.error "Target directory not found", false) :=
  worker_missing_dir_errors sampleNoFieldEnv sampleFieldTask false false rfl (by decide)

end EDOPro
